import Mathlib

/-!
Verification development for the AI Conversation Gateway of the
Lc7cPussy_tgbot repository: a shallow embedding of `modules/chat.py`,
`modules/utils.py`, `config.py` and the chat-related handlers of `bot.py`,
followed by theorems settling the specification claims.
-/

namespace LcBot

/- ===== Python string primitives ===== -/

/-- Membership of `needle` as a contiguous run in `haystack`
(Python `needle in haystack` on lists of characters). -/
def listInfix (needle : List Char) : List Char → Bool
  | [] => needle.isPrefixOf []
  | c :: t => needle.isPrefixOf (c :: t) || listInfix needle t

/-- Python `needle in haystack` on strings (substring containment). -/
def pyContains (haystack needle : String) : Bool :=
  listInfix needle.data haystack.data

/-- Python `s.lower()` (ASCII case folding; the messages involved are
ASCII plus Chinese characters, which are unaffected). -/
def pyLower (s : String) : String :=
  ⟨s.data.map Char.toLower⟩

/-- Python `s[:n]` — the first `n` code points of `s`. -/
def pyTake (s : String) (n : Nat) : String :=
  ⟨s.data.take n⟩

/-- Python `x or d` for an optional string: `None` and `""` are falsy. -/
def pyOr (m : Option String) (d : String) : String :=
  match m with
  | none => d
  | some s => if s = "" then d else s

/- ===== config.py ===== -/

/-- `config.DEFAULT_MODEL` (default value, no environment override). -/
def DEFAULT_MODEL : String := "gemini-3-flash"

/-- `config.AVAILABLE_MODELS`. -/
def AVAILABLE_MODELS : List String :=
  [ "gemini-3-flash",
    "gemini-3-pro-high",
    "gemini-3-pro-low",
    "gemini-3-pro-image",
    "gemini-2.5-flash",
    "gemini-2.5-flash-thinking",
    "claude-sonnet-4-5",
    "claude-sonnet-4-5-thinking",
    "claude-opus-4-5-thinking" ]

/- ===== modules/utils.py ===== -/

/-- `utils.lc7c`: prepend the bot tag to outgoing text. -/
def lc7c (text : String) : String :=
  "〔 LC7c 〕\n\n" ++ text

/- ===== modules/chat.py : data ===== -/

/-- An OpenAI-style message dict `\x7b"role": ..., "content": ...\x7d`. -/
structure Msg where
  role : String
  content : String
deriving Repr, DecidableEq

/-- A Gemini-style history entry `\x7b"role": ..., "parts": [...]\x7d`. -/
structure GMsg where
  role : String
  parts : List String
deriving Repr, DecidableEq

/-- `chat._convert_history`: turn the OpenAI-format message list into
`(gemini_history, last_user_message)`.  The last message is the current
user input; each earlier message is remapped, `assistant` becoming
`model` and every other role `user`. -/
def convert_history (messages : List Msg) : List GMsg × String :=
  if messages.isEmpty then ([], "")
  else
    (messages.dropLast.map (fun msg =>
        { role := if msg.role == "assistant" then "model" else "user",
          parts := [msg.content] }),
     ((messages.getLast?).map Msg.content).getD "")

/-- The single network request `chat.chat` issues: either
`start_chat(history).send_message(msg)` or `generate_content(msg)`. -/
inductive ProviderReq where
  | startChatSend (model : String) (history : List GMsg) (message : String)
  | generateContent (model : String) (message : String)
deriving Repr, DecidableEq

/-- Outcome of one provider call: a raised error with a message, or a
response whose `.text` may be missing (`none`) or empty. -/
inductive ProviderResp where
  | err (msg : String)
  | ok (text : Option String)
deriving Repr, DecidableEq

/-- The upstream Gemini endpoint, abstracted as a function from the one
request `chat.chat` makes to its outcome. -/
def Provider : Type := ProviderReq → ProviderResp

/-- What `chat.chat` does from the caller's point of view: return text
normally, or raise an exception carrying a message. -/
inductive ChatResult where
  | text (s : String)
  | raised (msg : String)
deriving Repr, DecidableEq

/-- The fixed fallback reply for an empty or missing response body. -/
def fallbackEmptyReply : String :=
  "抱歉，AI 未返回有效回复，请重试或换一种方式提问。"

/-- The message of the `RuntimeError` raised by `chat.chat`'s first
error rule (capacity / unavailability; suggests switching models). -/
def capacityErrorText (use_model : String) : String :=
  "⚠️ 模型 " ++ use_model ++ " 暂时不可用（服务器容量不足）\n请用 /model 切换其他模型"

/-- The text returned (not raised) when the safety rule matches. -/
def safetyBlockedReply : String :=
  "⚠️ 该回复被安全过滤器拦截，请换一种方式提问。"

/-- The first error rule's condition in `chat.chat`:
`"503" in error_msg or "capacity" in error_msg.lower() or "unavailable" in error_msg.lower()`. -/
def rule1cond (error_msg : String) : Bool :=
  pyContains error_msg "503" || pyContains (pyLower error_msg) "capacity"
    || pyContains (pyLower error_msg) "unavailable"

/-- The second error rule's condition in `chat.chat`:
`"block" in error_msg.lower() or "safety" in error_msg.lower()`. -/
def rule2cond (error_msg : String) : Bool :=
  pyContains (pyLower error_msg) "block" || pyContains (pyLower error_msg) "safety"

/-- The `except` branch of `chat.chat`: first rule raises the capacity
message, second rule returns the safety text, otherwise the original
exception is re-raised unchanged. -/
def chatExceptBranch (use_model error_msg : String) : ChatResult :=
  if rule1cond error_msg then ChatResult.raised (capacityErrorText use_model)
  else if rule2cond error_msg then ChatResult.text safetyBlockedReply
  else ChatResult.raised error_msg

/-- The provider request built by `chat.chat`: with history, a
chat-session send; with no history, a direct `generate_content`. -/
def chatRequest (messages : List Msg) (model : Option String) : ProviderReq :=
  let use_model := pyOr model DEFAULT_MODEL
  let (history, user_message) := convert_history messages
  if history.isEmpty then ProviderReq.generateContent use_model user_message
  else ProviderReq.startChatSend use_model history user_message

/-- `chat.chat`: build the request, perform exactly one provider call,
return the text (with the fixed fallback when the body is empty or
missing), and on failure apply the `except`-branch classification. -/
def chat (provider : Provider) (messages : List Msg) (model : Option String) :
    ChatResult :=
  let use_model := pyOr model DEFAULT_MODEL
  match provider (chatRequest messages model) with
  | ProviderResp.ok t =>
      let text := t.getD ""
      if text = "" then ChatResult.text fallbackEmptyReply
      else ChatResult.text text
  | ProviderResp.err e => chatExceptBranch use_model e

/-- `chat.is_valid_model`: exact membership in `AVAILABLE_MODELS`. -/
def is_valid_model (model : String) : Bool :=
  AVAILABLE_MODELS.contains model

/- ===== bot.py : chat-related handlers ===== -/

/-- One user's in-memory settings (`user_settings[user_id]`). -/
structure UserSettings where
  model : String
  chat_mode : Bool
deriving Repr, DecidableEq

/-- The message list `handle_message` passes to `chat.chat`:
exactly one entry, the current text with role `user` (bot.py:666). -/
def handleMessageMessages (user_message : String) : List Msg :=
  [{ role := "user", content := user_message }]

/-- The error text `handle_message` shows (bot.py:693-705) when
`chat.chat` raises with message `error_msg`. -/
def handleErrorText (error_msg : String) : String :=
  if pyContains error_msg "容量不足" || pyContains error_msg "不可用" then
    lc7c ("❌ " ++ error_msg)
  else if pyContains error_msg "503" || pyContains (pyLower error_msg) "unhealthy" then
    lc7c "❌ AI 服务不可用\n请确保 Antigravity Manager 正在运行"
  else if pyContains (pyLower error_msg) "timed out"
      || pyContains (pyLower error_msg) "timeout" then
    lc7c "❌ AI 响应超时，请重试"
  else
    lc7c ("❌ 对话出错: " ++ pyTake error_msg 150)

/-- The reply of `model_command` for an invalid model name. -/
def invalidModelReply (new_model : String) : String :=
  lc7c ("❌ 无效的模型名称: " ++ new_model)

/-- The reply of `model_command` for a successful switch. -/
def validModelReply (new_model : String) : String :=
  lc7c ("✅ 模型已切换为: `" ++ new_model ++ "`")

/-- `model_command` with an argument (bot.py:167-174): switch the stored
model when valid, otherwise reject and leave the settings unchanged.
Returns the new settings and the reply text. -/
def model_command_switch (settings : UserSettings) (new_model : String) :
    UserSettings × String :=
  if is_valid_model new_model then
    ({ settings with model := new_model }, validModelReply new_model)
  else
    (settings, invalidModelReply new_model)

/- ===== session store (absent from src/modules/chat.py) ===== -/

/-- Modelled from the spec: the per-user, per-model session store of the chat
module.  `bot.py` calls `chat.reset_chat(user_id)` (`chat_command`,
`chat_callback`, `quick_callback`) but no `reset_chat` and no session map are
present in `src/modules/chat.py`; spec §3 and §4.4 define the store as a map
keyed by `(userId, modelId)` holding opaque provider-side handles.  Keys are
`(user id, model id)` pairs and handles are opaque numbers. -/
abbrev SessionStore : Type := List ((Nat × String) × Nat)

/-- Modelled from the spec: `invalidate(userId)` — the behaviour of
`chat.reset_chat` — removes every stored session whose key's user component
matches, regardless of model; on a user with no sessions it is a no-op,
not an error. -/
def reset_chat (user_id : Nat) (store : SessionStore) : SessionStore :=
  store.filter (fun kv => !(kv.1.1 == user_id))

/-- `chat_command` with argument `off` (bot.py:116-120): leave chat mode and
reset the user's sessions; the `chat_off` callback (bot.py:153-157) performs
the same transition. -/
def chat_command_off (settings : UserSettings) (user_id : Nat)
    (store : SessionStore) : UserSettings × SessionStore :=
  ({ settings with chat_mode := false }, reset_chat user_id store)

/-- `chat_command` entering chat mode (bot.py:122-124): set chat mode and
explicitly reset the user's sessions so a fresh conversation begins. -/
def chat_command_on (settings : UserSettings) (user_id : Nat)
    (store : SessionStore) : UserSettings × SessionStore :=
  ({ settings with chat_mode := true }, reset_chat user_id store)

/- ===== helper lemmas ===== -/

theorem data_append (a b : String) : (a ++ b).data = a.data ++ b.data := by
  cases a; cases b; rfl

theorem listInfix_append_right (n b a : List Char)
    (h : listInfix n b = true) : listInfix n (a ++ b) = true := by
  induction a with
  | nil => simpa using h
  | cons x t ih => simp [listInfix, ih]

theorem pyContains_append_right (a b needle : String)
    (h : pyContains b needle = true) : pyContains (a ++ b) needle = true := by
  unfold pyContains at h ⊢
  rw [data_append]
  exact listInfix_append_right _ _ _ h

/- ===== claim theorems ===== -/

/-- C1: for a three-turn conversation `[U1 (user), A1 (assistant), U2 (user)]`,
`_convert_history` returns the history `[⟨user, [U1]⟩, ⟨model, [A1]⟩]` — the
assistant role remapped to `model`, order preserved — together with the
current message `U2`. -/
theorem c1_turn_based_three_turns (u1 a1 u2 : String) :
    convert_history
      [{ role := "user", content := u1 },
       { role := "assistant", content := a1 },
       { role := "user", content := u2 }] =
      ([{ role := "user", parts := [u1] }, { role := "model", parts := [a1] }],
       u2) := rfl

/-- C9: the history translation of `_convert_history` is total over roles —
every prior entry whose role is not exactly `assistant` (such as `system`)
is mapped to role `user`, and no entry is dropped (the history keeps one
entry per prior message). -/
theorem c9_roles_total (msgs : List Msg) (i : Nat) (m : Msg)
    (hm : msgs.dropLast[i]? = some m) (hrole : m.role ≠ "assistant") :
    (convert_history msgs).1[i]? =
      some { role := "user", parts := [m.content] } ∧
    (convert_history msgs).1.length = msgs.dropLast.length := by
  have hb : (m.role == "assistant") = false := by simp [hrole]
  cases msgs with
  | nil => simp at hm
  | cons a t =>
    have h1 : (convert_history (a :: t)).1 =
        (a :: t).dropLast.map (fun msg =>
          { role := if msg.role == "assistant" then "model" else "user",
            parts := [msg.content] }) := rfl
    rw [h1, List.getElem?_map, hm, List.length_map]
    simp [hb, hrole]

/-- C9 witness: a `system` entry is remapped to role `user`, not dropped. -/
theorem c9_roles_total_witness :
    (convert_history
        [{ role := "system", content := "s" }, { role := "user", content := "u" }]).1[0]? =
      some { role := "user", parts := ["s"] } ∧
    (convert_history
        [{ role := "system", content := "s" }, { role := "user", content := "u" }]).1.length =
      ([{ role := "system", content := "s" }, { role := "user", content := "u" }] : List Msg).dropLast.length :=
  c9_roles_total
    [{ role := "system", content := "s" }, { role := "user", content := "u" }]
    0 { role := "system", content := "s" } rfl (by decide)

/-- C10: the message list `handle_message` hands to `chat.chat` is a
single-element list holding only the current user message with role `user`;
under `_convert_history` its history is empty and its current message is the
user text, so the request issued is always the no-history
`generate_content` path — no prior turns are ever included. -/
theorem c10_handler_single_turn_no_history (userText : String) (model : Option String) :
    handleMessageMessages userText = [{ role := "user", content := userText }] ∧
    convert_history (handleMessageMessages userText) = ([], userText) ∧
    chatRequest (handleMessageMessages userText) model =
      ProviderReq.generateContent (pyOr model DEFAULT_MODEL) userText :=
  ⟨rfl, rfl, rfl⟩

/-- C5: when the provider call succeeds but the response body is missing
(`None`) or empty, `chat.chat` returns the fixed fallback string asking the
user to retry or rephrase, for every message list and model — it neither
raises nor propagates a failure. -/
theorem c5_empty_body_fallback (messages : List Msg) (model : Option String) :
    chat (fun _ => ProviderResp.ok none) messages model =
      ChatResult.text fallbackEmptyReply ∧
    chat (fun _ => ProviderResp.ok (some "")) messages model =
      ChatResult.text fallbackEmptyReply :=
  ⟨rfl, rfl⟩

/-- C2 counterexample: for the invalid model `not-a-real-model`,
`chat.chat` does not fail with an invalid-model error before calling the
provider — it issues exactly one provider request carrying the invalid
model id, and returns the provider's reply normally. -/
theorem c2_counterexample :
    is_valid_model "not-a-real-model" = false ∧
    chatRequest [{ role := "user", content := "hi" }] (some "not-a-real-model") =
      ProviderReq.generateContent "not-a-real-model" "hi" ∧
    chat (fun _ => ProviderResp.ok (some "pong"))
      [{ role := "user", content := "hi" }] (some "not-a-real-model") =
      ChatResult.text "pong" :=
  ⟨by decide, rfl, rfl⟩

/-- C2 amended: `chat.chat` performs no model-registry validation; for every
model id not in the registry (and non-empty, so Python's `or` keeps it), the
call issues exactly one provider request carrying that id and returns the
provider's outcome; invalid-model rejection exists only in the model-switch
command. -/
theorem c2_no_registry_check_in_chat (m userText : String)
    (_hv : is_valid_model m = false) (hm : m ≠ "") :
    chatRequest [{ role := "user", content := userText }] (some m) =
      ProviderReq.generateContent m userText ∧
    chat (fun _ => ProviderResp.ok (some "reply"))
      [{ role := "user", content := userText }] (some m) =
      ChatResult.text "reply" := by
  have hconv : convert_history [{ role := "user", content := userText }] =
      ([], userText) := rfl
  refine ⟨?_, rfl⟩
  simp [chatRequest, hconv, pyOr, hm]

/-- C2 amended, witness at the concrete invalid model `not-a-real-model`. -/
theorem c2_no_registry_check_witness :
    chatRequest [{ role := "user", content := "hey" }] (some "not-a-real-model") =
      ProviderReq.generateContent "not-a-real-model" "hey" ∧
    chat (fun _ => ProviderResp.ok (some "reply"))
      [{ role := "user", content := "hey" }] (some "not-a-real-model") =
      ChatResult.text "reply" :=
  c2_no_registry_check_in_chat "not-a-real-model" "hey" (by decide) (by decide)

/-- C3 counterexample: the raw provider failure `service unavailable`
contains `unavailable`, yet the chat pipeline raises the capacity text
(suggesting a model switch), and the text the handler then shows does not
mention Antigravity — the claimed service-unavailable rule with the
check-the-proxy text does not fire, because `unavailable` shares one rule
with `capacity` in `chat.chat`. -/
theorem c3_counterexample :
    pyContains (pyLower "service unavailable") "unavailable" = true ∧
    chatExceptBranch "gemini-3-flash" "service unavailable" =
      ChatResult.raised (capacityErrorText "gemini-3-flash") ∧
    handleErrorText (capacityErrorText "gemini-3-flash") =
      lc7c ("❌ " ++ capacityErrorText "gemini-3-flash") ∧
    pyContains (handleErrorText (capacityErrorText "gemini-3-flash"))
      "Antigravity" = false := by
  refine ⟨by decide, by decide, ?_, by decide⟩
  decide

/-- C3 amended: in the chat pipeline, `503`, `capacity` and `unavailable`
share the single first-matching rule of `chat.chat`, which raises the
capacity text suggesting a model switch, and the handler displays that text;
`unhealthy` is not matched by that rule — a failure containing `unhealthy`
and none of the earlier substrings is re-raised unchanged, and only then
does the handler show the text instructing to check that the upstream proxy
(Antigravity Manager) is running. -/
theorem c3_first_rule_and_unhealthy (model e f : String)
    (h1 : rule1cond e = true)
    (h2 : rule1cond f = false)
    (h3 : rule2cond f = false)
    (h4 : pyContains (pyLower f) "unhealthy" = true)
    (h5 : pyContains f "容量不足" = false)
    (h6 : pyContains f "不可用" = false) :
    chatExceptBranch model e = ChatResult.raised (capacityErrorText model) ∧
    handleErrorText (capacityErrorText model) =
      lc7c ("❌ " ++ capacityErrorText model) ∧
    chatExceptBranch model f = ChatResult.raised f ∧
    handleErrorText f =
      lc7c "❌ AI 服务不可用\n请确保 Antigravity Manager 正在运行" := by
  have h503 : pyContains f "503" = false := by
    simp [rule1cond, Bool.or_eq_false_iff] at h2
    exact h2.1.1
  have hc : pyContains
      (("⚠️ 模型 " ++ model) ++ " 暂时不可用（服务器容量不足）\n请用 /model 切换其他模型")
      "容量不足" = true :=
    pyContains_append_right _ _ _ (by decide)
  refine ⟨by simp [chatExceptBranch, h1], ?_, by simp [chatExceptBranch, h2, h3], ?_⟩
  · simp [handleErrorText, capacityErrorText, hc]
  · simp [handleErrorText, h5, h6, h503, h4]

/-- C3 amended, witness: `service unavailable` takes the capacity rule and
`backend unhealthy` reaches the handler's Antigravity branch. -/
theorem c3_first_rule_and_unhealthy_witness :
    chatExceptBranch "gemini-3-pro-high" "service unavailable" =
      ChatResult.raised (capacityErrorText "gemini-3-pro-high") ∧
    handleErrorText (capacityErrorText "gemini-3-pro-high") =
      lc7c ("❌ " ++ capacityErrorText "gemini-3-pro-high") ∧
    chatExceptBranch "gemini-3-pro-high" "backend unhealthy" =
      ChatResult.raised "backend unhealthy" ∧
    handleErrorText "backend unhealthy" =
      lc7c "❌ AI 服务不可用\n请确保 Antigravity Manager 正在运行" :=
  c3_first_rule_and_unhealthy "gemini-3-pro-high" "service unavailable"
    "backend unhealthy" (by decide) (by decide) (by decide) (by decide)
    (by decide) (by decide)

/-- C4 counterexample: the provider failure `request blocked due to capacity`
contains `block`, yet `chat.chat` raises (the capacity rule matches first)
instead of returning the safety text as ordinary content. -/
theorem c4_counterexample :
    pyContains (pyLower "request blocked due to capacity") "block" = true ∧
    chat (fun _ => ProviderResp.err "request blocked due to capacity")
      [{ role := "user", content := "hi" }] (some "gemini-3-flash") =
      ChatResult.raised (capacityErrorText "gemini-3-flash") := by
  decide

/-- C4 amended: for every provider failure whose message contains `block` or
`safety` (case-insensitive) and does not match the earlier
`503`/`capacity`/`unavailable` rule, `chat.chat` returns the fixed filtered
text as ordinary content — it does not raise — for every message list and
model. -/
theorem c4_safety_returns_text (e : String) (messages : List Msg)
    (model : Option String)
    (hb : rule2cond e = true) (h1 : rule1cond e = false) :
    chat (fun _ => ProviderResp.err e) messages model =
      ChatResult.text safetyBlockedReply := by
  simp [chat, chatExceptBranch, h1, hb]

/-- C4 amended, witness at the failure `blocked by safety filter`. -/
theorem c4_safety_returns_text_witness :
    chat (fun _ => ProviderResp.err "blocked by safety filter")
      [{ role := "user", content := "hi" }] (some "gemini-3-flash") =
      ChatResult.text safetyBlockedReply :=
  c4_safety_returns_text "blocked by safety filter"
    [{ role := "user", content := "hi" }] (some "gemini-3-flash")
    (by decide) (by decide)

/-- C6: for every failure message matching none of the handler's earlier
rules, the Unknown branch shows the raw message truncated to its first 150
code points (inside the fixed wrapper), and that truncation is at most 150
characters long. -/
theorem c6_unknown_truncated (e : String)
    (h1 : pyContains e "容量不足" = false) (h2 : pyContains e "不可用" = false)
    (h3 : pyContains e "503" = false)
    (h4 : pyContains (pyLower e) "unhealthy" = false)
    (h5 : pyContains (pyLower e) "timed out" = false)
    (h6 : pyContains (pyLower e) "timeout" = false) :
    handleErrorText e = lc7c ("❌ 对话出错: " ++ pyTake e 150) ∧
    (pyTake e 150).length ≤ 150 := by
  constructor
  · simp [handleErrorText, h1, h2, h3, h4, h5, h6]
  · have : (pyTake e 150).length = (e.data.take 150).length := rfl
    rw [this, List.length_take]
    exact Nat.min_le_left _ _

/-- C6 witness: the unmatched failure `weird xyz` reaches the Unknown
branch and its truncation obeys the 150-character bound. -/
theorem c6_unknown_truncated_witness :
    handleErrorText "weird xyz" = lc7c ("❌ 对话出错: " ++ pyTake "weird xyz" 150) ∧
    (pyTake "weird xyz" 150).length ≤ 150 :=
  c6_unknown_truncated "weird xyz" (by decide) (by decide) (by decide)
    (by decide) (by decide) (by decide)

/-- C7: `is_valid_model` succeeds exactly on exact (hence case-sensitive)
members of `AVAILABLE_MODELS`, and `model_command` with an invalid name
replies with the invalid-model message and leaves the user's stored
settings unchanged. -/
theorem c7_model_validation (m : String) (settings : UserSettings) :
    (is_valid_model m = true ↔ m ∈ AVAILABLE_MODELS) ∧
    (is_valid_model m = false →
      model_command_switch settings m = (settings, invalidModelReply m)) := by
  constructor
  · simp [is_valid_model]
  · intro h
    simp [model_command_switch, h]

/-- C7 witness: `GEMINI-3-FLASH` differs from the listed `gemini-3-flash`
only by case and is rejected, the stored settings untouched. -/
theorem c7_model_validation_witness :
    model_command_switch { model := "gemini-3-flash", chat_mode := true }
      "GEMINI-3-FLASH" =
      ({ model := "gemini-3-flash", chat_mode := true },
       invalidModelReply "GEMINI-3-FLASH") :=
  (c7_model_validation "GEMINI-3-FLASH"
    { model := "gemini-3-flash", chat_mode := true }).2 (by decide)

/-- C8: turning chat mode off, and the explicit reset on entering chat mode,
both clear every stored session of that user (`reset_chat`, modelled from the
spec): every surviving entry belongs to another user, and when the user has
no stored sessions the reset is a no-op returning the store unchanged. -/
theorem c8_invalidate_all_sessions (u : Nat) (store : SessionStore)
    (settings : UserSettings) :
    (chat_command_off settings u store).2 = reset_chat u store ∧
    (chat_command_off settings u store).1.chat_mode = false ∧
    (chat_command_on settings u store).2 = reset_chat u store ∧
    (∀ kv ∈ reset_chat u store, kv.1.1 ≠ u) ∧
    ((∀ kv ∈ store, kv.1.1 ≠ u) → reset_chat u store = store) := by
  refine ⟨rfl, rfl, rfl, ?_, ?_⟩
  · intro kv hkv
    have h := List.of_mem_filter hkv
    simpa using h
  · intro h
    apply List.filter_eq_self.mpr
    intro kv hkv
    simpa using h kv hkv

/-- C8 witness: resetting user 1 on a store holding only a session of
user 2 is a no-op and raises nothing. -/
theorem c8_invalidate_all_sessions_witness :
    reset_chat 1 [((2, "gemini-3-flash"), 0)] = [((2, "gemini-3-flash"), 0)] :=
  (c8_invalidate_all_sessions 1 [((2, "gemini-3-flash"), 0)]
    { model := "gemini-3-flash", chat_mode := true }).2.2.2.2 (by decide)

end LcBot
